import Mathlib

/-!
Shallow embedding of `mne/viz/backends/renderer.py`: the runtime-configurable
3-D rendering facade (backend resolver, binder, process-wide backend state,
scoped backend switch, and delegation API).

The module's global namespace is modelled by `ModuleState`; executing the
module top level (both the first import and the `importlib.reload` triggered
by `set_3d_backend`) is `moduleBody`.  The external environment (which
concrete implementation modules can be imported, and what the
configuration/environment resolver yields) is an explicit `Env` parameter.
Python exceptions are modelled by the `PyError` type; a stateful call returns
the resulting module namespace together with `Option PyError` (the namespace
survives a failed reload, exactly as a Python module dict does).
-/

namespace MneRenderer

/-- Errors the embedded code can raise: `ValueError` from `_check_option`,
`ImportError` from importing a concrete implementation module, `KeyError`
from `_name_map[...]`, and `NameError` from reading an unbound global. -/
inductive PyError where
  | valueError (param : String) (value : String)
  | importError (modName : String)
  | keyError (key : String)
  | nameError (name : String)
deriving DecidableEq, Repr

/-- Modelled from the spec: `VALID_3D_BACKENDS` lives in `_utils` (not under
src/); it is the fixed, closed set of supported engine identifiers.  Its two
members are pinned down by the source's `_name_map = dict(mayavi=..., pyvista=...)`. -/
def VALID_3D_BACKENDS : List String := ["mayavi", "pyvista"]

/-- The source's `_name_map`: the implementation module imported for each
supported backend name, `none` when the name has no entry (a Python dict
lookup miss). -/
def _name_map : String → Option String
  | "mayavi" => some "_pysurfer_mayavi"
  | "pyvista" => some "_pyvista"
  | _ => none

/-- The module-level globals of `renderer.py` that the claims are about:
`MNE_3D_BACKEND` (the active backend name), `MNE_3D_BACKEND_TEST_DATA`
(`false` models Python `None`, `true` models `True`), and `_mod` (the bound
implementation module, `none` when the global was never assigned). -/
structure ModuleState where
  MNE_3D_BACKEND : String
  MNE_3D_BACKEND_TEST_DATA : Bool
  _mod : Option String
deriving DecidableEq, Repr

/-- The external world: which concrete implementation modules import
successfully, and the backend name the configuration/environment resolver
`_get_backend_based_on_env_and_defaults` (not under src/; modelled from the
spec as an opaque one-shot resolution) would produce. -/
structure Env where
  importOk : String → Bool
  resolvedDefault : String

/-- Modelled from the spec: `_check_option` (in `mne.utils.check`, not under
src/) validates that `value` is a member of `allowed` and raises a
`ValueError` naming the parameter otherwise. -/
def _check_option (param : String) (value : String) (allowed : List String) :
    Option PyError :=
  if value ∈ allowed then none else some (PyError.valueError param value)

/-- The part of the module top level after the `try/except NameError` guard:
given the namespace `st0` left by the guard, when the active name is a member
of `VALID_3D_BACKENDS` the concrete implementation is imported and bound to
`_mod`.  Returns the resulting namespace and the error, if any, that escaped
(statements executed before the error keep their effect, as in a Python
module dict).  `moduleBody` below wires in the guard: `prior` is the existing
module namespace (`some` on an `importlib.reload`, `none` on the first
import), and the resolver runs only when the globals are not yet defined. -/
def moduleBodyCore (env : Env) (st0 : ModuleState) :
    ModuleState × Option PyError :=
  if st0.MNE_3D_BACKEND ∈ VALID_3D_BACKENDS then
    match _name_map st0.MNE_3D_BACKEND with
    | some m =>
        if env.importOk m then ({ st0 with _mod := some m }, none)
        else (st0, some (PyError.importError m))
    | none => (st0, some (PyError.keyError st0.MNE_3D_BACKEND))
  else
    (st0, none)

/-- Executing the top level of `renderer.py`: the `try/except NameError`
guard first, then `moduleBodyCore`. -/
def moduleBody (env : Env) (prior : Option ModuleState) :
    ModuleState × Option PyError :=
  moduleBodyCore env
    (match prior with
     | some st => st
     | none =>
         { MNE_3D_BACKEND := env.resolvedDefault
           MNE_3D_BACKEND_TEST_DATA := false
           _mod := none })

/-- The first import of the module: on an error the import fails as a whole
and no module object is left behind. -/
def initModule (env : Env) : Except PyError ModuleState :=
  match moduleBody env none with
  | (st, none) => Except.ok st
  | (_, some e) => Except.error e

/-- The source's `set_3d_backend`: `_check_option` membership validation,
then `MNE_3D_BACKEND = backend_name` (a global mutation), then
`importlib.reload(sys.modules[__name__])`, which re-executes the module body
on the already-mutated namespace. -/
def set_3d_backend (env : Env) (st : ModuleState) (backend_name : String) :
    ModuleState × Option PyError :=
  match _check_option "backend_name" backend_name VALID_3D_BACKENDS with
  | some e => (st, some e)
  | none => moduleBody env (some { st with MNE_3D_BACKEND := backend_name })

/-- The source's `get_3d_backend`: `return MNE_3D_BACKEND`.  Returns the value
together with the (untouched) state, to make the absence of side effects a
statement rather than a typing accident. -/
def get_3d_backend (st : ModuleState) : String × ModuleState :=
  (st.MNE_3D_BACKEND, st)

/-- How a run of the scoped switch ends: the body completed and the scope
exited cleanly; the body raised `x` and the scope re-raised it after
restoring; entering the scope failed (the body never ran); or the
restoration call in the `finally` block itself raised, superseding any
in-flight body exception (Python `finally` semantics). -/
inductive ScopeResult (ε : Type) where
  | ok
  | bodyError (x : ε)
  | setupError (e : PyError)
  | restoreError (e : PyError)
deriving DecidableEq, Repr

/-- The source's `use_3d_backend` context manager: capture
`old_backend = get_3d_backend()`, call `set_3d_backend(backend_name)` outside
the `try` (a failure there propagates with no body run and no restore), run
the body, and in `finally` call `set_3d_backend(old_backend)`.  The body is an
arbitrary state transformer that may itself raise (`Option ε`). -/
def use_3d_backend {ε : Type} (env : Env) (st : ModuleState)
    (backend_name : String) (body : ModuleState → ModuleState × Option ε) :
    ModuleState × ScopeResult ε :=
  let old_backend := (get_3d_backend st).1
  match set_3d_backend env st backend_name with
  | (st1, some e) => (st1, ScopeResult.setupError e)
  | (st1, none) =>
      match body st1 with
      | (st2, r) =>
          match set_3d_backend env st2 old_backend with
          | (st3, some e) => (st3, ScopeResult.restoreError e)
          | (st3, none) =>
              match r with
              | some x => (st3, ScopeResult.bodyError x)
              | none => (st3, ScopeResult.ok)

/-- The source's `_use_test_3d_backend`: inside a `use_3d_backend` scope it
sets the global `MNE_3D_BACKEND_TEST_DATA = True` and then yields to the
body.  (There is no statement after the `yield`, so nothing in this function
resets the flag.) -/
def _use_test_3d_backend {ε : Type} (env : Env) (st : ModuleState)
    (backend_name : String) (body : ModuleState → ModuleState × Option ε) :
    ModuleState × ScopeResult ε :=
  use_3d_backend env st backend_name
    (fun st1 => body { st1 with MNE_3D_BACKEND_TEST_DATA := true })

/-- The named-argument record `set_3d_view` hands to the bound
implementation's `_set_3d_view`; `target` is the implementation module the
call was delegated to. -/
structure ViewCall where
  target : String
  figure : Nat
  azimuth : Option Int
  elevation : Option Int
  focalpoint : Option (Int × Int × Int)
  distance : Option Int
deriving DecidableEq, Repr

/-- The source's `set_3d_view`: `_mod._set_3d_view(figure=figure,
azimuth=azimuth, elevation=elevation, focalpoint=focalpoint,
distance=distance)`.  Reading `_mod` when it was never bound raises
`NameError`; otherwise the call record delivered to the binding is returned. -/
def set_3d_view (st : ModuleState) (figure : Nat) (azimuth : Option Int)
    (elevation : Option Int) (focalpoint : Option (Int × Int × Int))
    (distance : Option Int) : Except PyError ViewCall :=
  match st._mod with
  | none => Except.error (PyError.nameError "_mod")
  | some m =>
      Except.ok
        { target := m, figure := figure, azimuth := azimuth
          elevation := elevation, focalpoint := focalpoint
          distance := distance }

/-- The named-argument record `set_3d_title` hands to the bound
implementation's `_set_3d_title`. -/
structure TitleCall where
  target : String
  figure : Nat
  title : String
  size : Int
deriving DecidableEq, Repr

/-- The source's `set_3d_title`: delegates `figure`, `title` and `size` to
`_mod._set_3d_title`; `NameError` when `_mod` was never bound. -/
def set_3d_title (st : ModuleState) (figure : Nat) (title : String)
    (size : Int) : Except PyError TitleCall :=
  match st._mod with
  | none => Except.error (PyError.nameError "_mod")
  | some m => Except.ok { target := m, figure := figure, title := title, size := size }

/-- The constructor-argument record `create_3d_figure` hands to the bound
implementation's `_Renderer` (whose `.scene()` is then returned). -/
structure RendererCall where
  target : String
  fig : Option Nat
  size : Int × Int
  bgcolor : Int × Int × Int
deriving DecidableEq, Repr

/-- The source's `create_3d_figure`: `_mod._Renderer(fig=handle, size=size,
bgcolor=bgcolor)` followed by `.scene()`; `NameError` when `_mod` was never
bound. -/
def create_3d_figure (st : ModuleState) (size : Int × Int)
    (bgcolor : Int × Int × Int) (handle : Option Nat) :
    Except PyError RendererCall :=
  match st._mod with
  | none => Except.error (PyError.nameError "_mod")
  | some m => Except.ok { target := m, fig := handle, size := size, bgcolor := bgcolor }

/-- Environment in which both implementation modules import successfully. -/
def envGood : Env :=
  { importOk := fun _ => true, resolvedDefault := "pyvista" }

/-- Environment in which importing the mayavi implementation fails (a missing
dependency) while the pyvista implementation imports fine. -/
def envMayaviBroken : Env :=
  { importOk := fun m => !(m == "_pysurfer_mayavi"), resolvedDefault := "pyvista" }

/-- Environment whose resolver yields a name outside the supported set. -/
def envFoo : Env :=
  { importOk := fun _ => true, resolvedDefault := "foo" }

/-- A reachable state: pyvista active and bound, test flag at `None`. -/
def stPyvista : ModuleState :=
  { MNE_3D_BACKEND := "pyvista", MNE_3D_BACKEND_TEST_DATA := false
    _mod := some "_pyvista" }

/-- The reachable state with mayavi active and bound, test flag at `None`. -/
def stMayavi : ModuleState :=
  { MNE_3D_BACKEND := "mayavi", MNE_3D_BACKEND_TEST_DATA := false
    _mod := some "_pysurfer_mayavi" }

/-- A scope body that does nothing and returns normally. -/
def bodyNoop : ModuleState → ModuleState × Option Unit :=
  fun st => (st, none)

/-- A scope body that raises (the exception is modelled by the number 42). -/
def bodyRaise : ModuleState → ModuleState × Option Nat :=
  fun st => (st, some 42)

/- ------------------------------------------------------------------ -/
/- Helper lemmas shared by the claim theorems.                         -/
/- ------------------------------------------------------------------ -/

theorem name_map_of_valid {n : String} (h : n ∈ VALID_3D_BACKENDS) :
    ∃ m, _name_map n = some m := by
  simp only [VALID_3D_BACKENDS, List.mem_cons, List.mem_singleton,
    List.not_mem_nil, or_false] at h
  rcases h with h | h <;> subst h <;> exact ⟨_, rfl⟩

theorem name_map_none {n : String} (h : n ∉ VALID_3D_BACKENDS) :
    _name_map n = none := by
  unfold _name_map
  split
  · exact absurd (by simp [VALID_3D_BACKENDS]) h
  · exact absurd (by simp [VALID_3D_BACKENDS]) h
  · rfl

theorem moduleBodyCore_preserves (env : Env) (st : ModuleState) :
    (moduleBodyCore env st).1.MNE_3D_BACKEND = st.MNE_3D_BACKEND ∧
    (moduleBodyCore env st).1.MNE_3D_BACKEND_TEST_DATA =
      st.MNE_3D_BACKEND_TEST_DATA := by
  unfold moduleBodyCore
  split
  · split
    · split <;> exact ⟨rfl, rfl⟩
    · exact ⟨rfl, rfl⟩
  · exact ⟨rfl, rfl⟩

theorem moduleBody_reload_preserves (env : Env) (st : ModuleState) :
    (moduleBody env (some st)).1.MNE_3D_BACKEND = st.MNE_3D_BACKEND ∧
    (moduleBody env (some st)).1.MNE_3D_BACKEND_TEST_DATA =
      st.MNE_3D_BACKEND_TEST_DATA :=
  moduleBodyCore_preserves env st

theorem set_3d_backend_invalid (env : Env) (st : ModuleState) (n : String)
    (h : n ∉ VALID_3D_BACKENDS) :
    set_3d_backend env st n = (st, some (PyError.valueError "backend_name" n)) := by
  simp [set_3d_backend, _check_option, h]

theorem set_3d_backend_valid (env : Env) (st : ModuleState) (n : String)
    (h : n ∈ VALID_3D_BACKENDS) :
    set_3d_backend env st n =
      moduleBody env (some { st with MNE_3D_BACKEND := n }) := by
  simp [set_3d_backend, _check_option, h]

theorem set_3d_backend_success_mem (env : Env) (st : ModuleState) (n : String)
    (h : (set_3d_backend env st n).2 = none) : n ∈ VALID_3D_BACKENDS := by
  by_contra hn
  rw [set_3d_backend_invalid env st n hn] at h
  exact Option.some_ne_none _ h

theorem set_3d_backend_success_backend (env : Env) (st : ModuleState)
    (n : String) (h : (set_3d_backend env st n).2 = none) :
    (set_3d_backend env st n).1.MNE_3D_BACKEND = n := by
  have hmem := set_3d_backend_success_mem env st n h
  rw [set_3d_backend_valid env st n hmem]
  exact (moduleBody_reload_preserves env _).1

theorem set_3d_backend_testData (env : Env) (st : ModuleState) (n : String) :
    (set_3d_backend env st n).1.MNE_3D_BACKEND_TEST_DATA =
      st.MNE_3D_BACKEND_TEST_DATA := by
  by_cases hmem : n ∈ VALID_3D_BACKENDS
  · rw [set_3d_backend_valid env st n hmem]
    exact (moduleBody_reload_preserves env _).2
  · rw [set_3d_backend_invalid env st n hmem]

theorem use_3d_backend_eq {ε : Type} (env : Env) (st st1 st2 : ModuleState)
    (n : String) (r : Option ε) (body : ModuleState → ModuleState × Option ε)
    (hsetup : set_3d_backend env st n = (st1, none))
    (hb : body st1 = (st2, r)) :
    use_3d_backend env st n body =
      ((set_3d_backend env st2 st.MNE_3D_BACKEND).1,
       match (set_3d_backend env st2 st.MNE_3D_BACKEND).2, r with
       | some e, _ => ScopeResult.restoreError e
       | none, some x => ScopeResult.bodyError x
       | none, none => ScopeResult.ok) := by
  unfold use_3d_backend
  rcases hres : set_3d_backend env st2 st.MNE_3D_BACKEND with ⟨st3, rr⟩
  simp only [get_3d_backend, hsetup, hb, hres]
  cases rr <;> cases r <;> simp

theorem moduleBodyCore_success_mod (env : Env) (st0 s : ModuleState)
    (hmod : st0._mod = none ∨ st0.MNE_3D_BACKEND ∈ VALID_3D_BACKENDS)
    (h : moduleBodyCore env st0 = (s, none)) :
    s._mod = _name_map s.MNE_3D_BACKEND := by
  by_cases hmem : st0.MNE_3D_BACKEND ∈ VALID_3D_BACKENDS
  · obtain ⟨m, hm⟩ := name_map_of_valid hmem
    by_cases hio : env.importOk m = true
    · have heq : moduleBodyCore env st0 = ({ st0 with _mod := some m }, none) := by
        simp [moduleBodyCore, hmem, hm, hio]
      rw [heq] at h
      injection h with h1 h2
      subst h1
      simp [hm]
    · have heq : moduleBodyCore env st0 = (st0, some (PyError.importError m)) := by
        simp [moduleBodyCore, hmem, hm, hio]
      rw [heq] at h
      injection h with h1 h2
      exact absurd h2 (by simp)
  · have heq : moduleBodyCore env st0 = (st0, none) := by
      simp [moduleBodyCore, hmem]
    rw [heq] at h
    injection h with h1 h2
    subst h1
    rcases hmod with hm0 | hm0
    · rw [hm0, name_map_none hmem]
    · exact absurd hm0 hmem

/- ------------------------------------------------------------------ -/
/- Claim theorems.                                                     -/
/- ------------------------------------------------------------------ -/

/-- C4: for every name outside the supported backend set, `set_3d_backend`
raises the `_check_option` invalid-name error before any state mutation: the
whole module state (active name, bound implementation handle, test flag) is
returned unchanged, so `get_3d_backend` afterwards yields the same value as
before the call. -/
theorem c4_set_invalid_name_unchanged (env : Env) (st : ModuleState)
    (n : String) (h : n ∉ VALID_3D_BACKENDS) :
    set_3d_backend env st n = (st, some (PyError.valueError "backend_name" n)) ∧
    (get_3d_backend (set_3d_backend env st n).1).1 = (get_3d_backend st).1 := by
  have he := set_3d_backend_invalid env st n h
  exact ⟨he, by rw [he]⟩

/-- Witness for C4 at the unsupported name `"foo"`. -/
theorem c4_witness :
    ("foo" ∉ VALID_3D_BACKENDS) ∧
    (set_3d_backend envGood stPyvista "foo" =
      (stPyvista, some (PyError.valueError "backend_name" "foo")) ∧
     (get_3d_backend (set_3d_backend envGood stPyvista "foo").1).1 =
       (get_3d_backend stPyvista).1) :=
  ⟨by decide, c4_set_invalid_name_unchanged envGood stPyvista "foo" (by decide)⟩

/-- C5: for every supported backend name `n`, after a successful
`set_3d_backend n` (no error returned), `get_3d_backend` returns `n`. -/
theorem c5_set_then_get (env : Env) (st : ModuleState) (n : String)
    (h : (set_3d_backend env st n).2 = none) :
    (get_3d_backend (set_3d_backend env st n).1).1 = n :=
  set_3d_backend_success_backend env st n h

/-- Witness for C5: switching the pyvista state to mayavi in an environment
where the mayavi implementation imports fine. -/
theorem c5_witness :
    ((set_3d_backend envGood stPyvista "mayavi").2 = none) ∧
    (get_3d_backend (set_3d_backend envGood stPyvista "mayavi").1).1 = "mayavi" :=
  ⟨by decide, c5_set_then_get envGood stPyvista "mayavi" (by decide)⟩

/-- C8: `set_3d_view` forwards each of `azimuth`, `elevation`, `focalpoint`,
`distance` (and `figure`) unchanged to the bound implementation's
view-setter: a field the caller leaves unset travels as the distinguished
`none` (Python `None`), never substituted by a concrete default, and a
supplied field arrives exactly as given. -/
theorem c8_set_3d_view_forwards (st : ModuleState) (m : String)
    (h : st._mod = some m) (figure : Nat) (azimuth : Option Int)
    (elevation : Option Int) (focalpoint : Option (Int × Int × Int))
    (distance : Option Int) :
    set_3d_view st figure azimuth elevation focalpoint distance =
      Except.ok { target := m, figure := figure, azimuth := azimuth,
                  elevation := elevation, focalpoint := focalpoint,
                  distance := distance } := by
  simp [set_3d_view, h]

/-- Witness for C8: one supplied field (`azimuth := some 45`) and three unset
fields all pass through unchanged. -/
theorem c8_witness :
    stPyvista._mod = some "_pyvista" ∧
    set_3d_view stPyvista 7 (some 45) none none none =
      Except.ok { target := "_pyvista", figure := 7, azimuth := some 45,
                  elevation := none, focalpoint := none, distance := none } :=
  ⟨rfl, c8_set_3d_view_forwards stPyvista "_pyvista" rfl 7 (some 45) none none none⟩

/-- C9: `get_3d_backend` is a pure read: it never fails, returns the stored
active backend name, and leaves every component of the module state (active
name, bound implementation handle, test-mode flag) unchanged. -/
theorem c9_get_3d_backend_pure (st : ModuleState) :
    (get_3d_backend st).1 = st.MNE_3D_BACKEND ∧
    (get_3d_backend st).2.MNE_3D_BACKEND = st.MNE_3D_BACKEND ∧
    (get_3d_backend st).2._mod = st._mod ∧
    (get_3d_backend st).2.MNE_3D_BACKEND_TEST_DATA =
      st.MNE_3D_BACKEND_TEST_DATA :=
  ⟨rfl, rfl, rfl, rfl⟩

/-- C1 counterexample: from the pyvista state, in an environment where the
mayavi implementation fails to import, `set_3d_backend "mayavi"` fails in its
Binder step (the reload's import raises `ImportError`) — yet `get_3d_backend`
afterwards returns the new name `"mayavi"`, not the previous `"pyvista"`.
The update is therefore not all-or-nothing. -/
theorem c1_counterexample :
    ((set_3d_backend envMayaviBroken stPyvista "mayavi").2 =
      some (PyError.importError "_pysurfer_mayavi")) ∧
    (get_3d_backend stPyvista).1 = "pyvista" ∧
    (get_3d_backend (set_3d_backend envMayaviBroken stPyvista "mayavi").1).1 =
      "mayavi" ∧
    ("mayavi" : String) ≠ "pyvista" := by
  decide

/-- C1 amended: when the Binder step of `set_3d_backend n` fails for a
supported name `n`, the previously bound implementation handle `_mod` and the
test flag are unchanged, but the stored active name has already been replaced
by `n` — `get_3d_backend` returns `n`, not the previous name.  Only the
binding, not the name, survives the failure; the update is partial, not
all-or-nothing. -/
theorem c1_set_failure_partial (env : Env) (st : ModuleState) (n : String)
    (e : PyError) (hmem : n ∈ VALID_3D_BACKENDS)
    (h : (set_3d_backend env st n).2 = some e) :
    (get_3d_backend (set_3d_backend env st n).1).1 = n ∧
    (set_3d_backend env st n).1._mod = st._mod ∧
    (set_3d_backend env st n).1.MNE_3D_BACKEND_TEST_DATA =
      st.MNE_3D_BACKEND_TEST_DATA := by
  have hcore := set_3d_backend_valid env st n hmem
  obtain ⟨m, hm⟩ := name_map_of_valid hmem
  by_cases hio : env.importOk m = true
  · exfalso
    rw [hcore] at h
    simp [moduleBody, moduleBodyCore, hmem, hm, hio] at h
  · rw [hcore] at h ⊢
    simp [moduleBody, moduleBodyCore, hmem, hm, hio, get_3d_backend]

/-- Witness for C1's amended statement, at the counterexample's input. -/
theorem c1_witness :
    ("mayavi" ∈ VALID_3D_BACKENDS) ∧
    ((set_3d_backend envMayaviBroken stPyvista "mayavi").2 =
      some (PyError.importError "_pysurfer_mayavi")) ∧
    ((get_3d_backend (set_3d_backend envMayaviBroken stPyvista "mayavi").1).1 =
       "mayavi" ∧
     (set_3d_backend envMayaviBroken stPyvista "mayavi").1._mod =
       stPyvista._mod ∧
     (set_3d_backend envMayaviBroken stPyvista "mayavi").1.MNE_3D_BACKEND_TEST_DATA =
       stPyvista.MNE_3D_BACKEND_TEST_DATA) :=
  ⟨by decide, by decide,
   c1_set_failure_partial envMayaviBroken stPyvista "mayavi"
     (PyError.importError "_pysurfer_mayavi") (by decide) (by decide)⟩

/-- C2 counterexample: a test scope around a body that does nothing exits
normally, yet the test flag `MNE_3D_BACKEND_TEST_DATA` is `true` in the final
state, not restored to `None` — nothing after the `yield` resets it, and the
reload's one-time-initialization guard preserves it. -/
theorem c2_counterexample :
    ((_use_test_3d_backend envGood stPyvista "mayavi" bodyNoop).2 =
      ScopeResult.ok) ∧
    stPyvista.MNE_3D_BACKEND_TEST_DATA = false ∧
    ((_use_test_3d_backend envGood stPyvista "mayavi"
        bodyNoop).1).MNE_3D_BACKEND_TEST_DATA = true := by
  decide

/-- C2 amended: entering `_use_test_3d_backend n` sets
`MNE_3D_BACKEND_TEST_DATA` to true before the body runs, but on every exit
from the scope — normal return, a body exception, even a failed restoration —
the flag is NOT restored to absent/`None`: provided the scope was entered
(the initial `set_3d_backend` succeeded) and the body itself leaves the flag
alone, the flag is still true in the final state. -/
theorem c2_test_flag_not_restored {ε : Type} (env : Env)
    (st st1 : ModuleState) (n : String)
    (body : ModuleState → ModuleState × Option ε)
    (hbody : ∀ s, ((body s).1).MNE_3D_BACKEND_TEST_DATA =
      s.MNE_3D_BACKEND_TEST_DATA)
    (hsetup : set_3d_backend env st n = (st1, none)) :
    ((_use_test_3d_backend env st n body).1).MNE_3D_BACKEND_TEST_DATA = true := by
  rcases hb : body { st1 with MNE_3D_BACKEND_TEST_DATA := true } with ⟨st2, r⟩
  have h1 : _use_test_3d_backend env st n body =
      use_3d_backend env st n
        (fun s => body { s with MNE_3D_BACKEND_TEST_DATA := true }) := rfl
  rw [h1, use_3d_backend_eq env st st1 st2 n r _ hsetup hb]
  have h2 := set_3d_backend_testData env st2 st.MNE_3D_BACKEND
  have h3 := hbody { st1 with MNE_3D_BACKEND_TEST_DATA := true }
  rw [hb] at h3
  simp only [h2]
  simpa using h3

/-- Witness for C2's amended statement: the scope entered from the pyvista
state with the trivial body leaves the flag at `true`. -/
theorem c2_witness :
    (∀ s, ((bodyNoop s).1).MNE_3D_BACKEND_TEST_DATA =
      s.MNE_3D_BACKEND_TEST_DATA) ∧
    (set_3d_backend envGood stPyvista "mayavi" = (stMayavi, none)) ∧
    ((_use_test_3d_backend envGood stPyvista "mayavi"
        bodyNoop).1).MNE_3D_BACKEND_TEST_DATA = true :=
  ⟨fun _ => rfl, by decide,
   c2_test_flag_not_restored envGood stPyvista stMayavi "mayavi" bodyNoop
     (fun _ => rfl) (by decide)⟩

/-- C3: when entering `use_3d_backend n` succeeded and the body has run, then
on exit the previous backend is restored and the body's outcome is propagated
unchanged — the body's exception `x` surfaces as itself — while a failing
restoration call supersedes the body's outcome and surfaces instead. -/
theorem c3_use_3d_backend_restores {ε : Type} (env : Env)
    (st st1 st2 : ModuleState) (n : String) (r : Option ε)
    (body : ModuleState → ModuleState × Option ε)
    (hsetup : set_3d_backend env st n = (st1, none))
    (hb : body st1 = (st2, r)) :
    ((set_3d_backend env st2 st.MNE_3D_BACKEND).2 = none →
      ((get_3d_backend (use_3d_backend env st n body).1).1 =
         (get_3d_backend st).1 ∧
       (use_3d_backend env st n body).2 =
         (match r with
          | some x => ScopeResult.bodyError x
          | none => ScopeResult.ok))) ∧
    (∀ e, (set_3d_backend env st2 st.MNE_3D_BACKEND).2 = some e →
      (use_3d_backend env st n body).2 = ScopeResult.restoreError e) := by
  rw [use_3d_backend_eq env st st1 st2 n r body hsetup hb]
  constructor
  · intro hres
    refine ⟨?_, ?_⟩
    · have := set_3d_backend_success_backend env st2 st.MNE_3D_BACKEND hres
      simpa [get_3d_backend] using this
    · simp only [hres]
      cases r <;> rfl
  · intro e hres
    simp only [hres]

/-- Witness for C3: a body that raises `42` inside a mayavi scope over the
pyvista state; the backend is restored and the error propagated unchanged. -/
theorem c3_witness :
    (get_3d_backend (use_3d_backend envGood stPyvista "mayavi" bodyRaise).1).1 =
      (get_3d_backend stPyvista).1 ∧
    (use_3d_backend envGood stPyvista "mayavi" bodyRaise).2 =
      ScopeResult.bodyError 42 := by
  have h := (c3_use_3d_backend_restores envGood stPyvista stMayavi stMayavi
    "mayavi" (some 42) bodyRaise (by decide) rfl).1 (by decide)
  simpa using h

/-- C6: in every state produced by a successful mutation of the module state
— a successful first initialization or a successful `set_3d_backend` — the
bound implementation handle `_mod` is exactly what `_name_map` assigns to the
active backend name (both sides `none` when the active name is unsupported
and nothing was ever bound). -/
theorem c6_binding_consistent (env : Env) (st st2 : ModuleState) (n : String)
    (h : initModule env = Except.ok st2 ∨ set_3d_backend env st n = (st2, none)) :
    st2._mod = _name_map st2.MNE_3D_BACKEND := by
  rcases h with h | h
  · unfold initModule at h
    rcases hmb : moduleBody env none with ⟨s, r⟩
    rw [hmb] at h
    cases r with
    | some e => simp at h
    | none =>
        have hs : s = st2 := by simpa using h
        subst hs
        unfold moduleBody at hmb
        exact moduleBodyCore_success_mod env _ s (Or.inl rfl) hmb
  · have hmem : n ∈ VALID_3D_BACKENDS := by
      apply set_3d_backend_success_mem env st n
      rw [h]
    have hcore := set_3d_backend_valid env st n hmem
    rw [hcore] at h
    refine moduleBodyCore_success_mod env _ st2 (Or.inr ?_) h
    simpa using hmem

/-- Witness for C6: the state after the first initialization in a healthy
environment is consistent. -/
theorem c6_witness :
    stPyvista._mod = _name_map stPyvista.MNE_3D_BACKEND :=
  c6_binding_consistent envGood stPyvista stPyvista "mayavi" (Or.inl rfl)

/-- C7: re-executing the module top level when the state already exists (any
reload triggered by `set_3d_backend`) neither consults the resolver — the
result is the same for any two resolver outputs — nor changes the stored
backend name. -/
theorem c7_resolver_runs_once (ok : String → Bool) (d d2 : String)
    (st : ModuleState) :
    moduleBody { importOk := ok, resolvedDefault := d } (some st) =
      moduleBody { importOk := ok, resolvedDefault := d2 } (some st) ∧
    (moduleBody { importOk := ok, resolvedDefault := d }
        (some st)).1.MNE_3D_BACKEND = st.MNE_3D_BACKEND :=
  ⟨rfl, (moduleBody_reload_preserves _ st).1⟩

/-- C10: when the resolver yields a name outside the supported set, the first
module initialization completes without error (the membership guard skips the
binding step), `_mod` is never bound, and every delegated facade call —
`create_3d_figure`, `set_3d_view`, `set_3d_title` — then fails with the
unbound-name `NameError`: the invalid default is reported lazily at first
delegation, not fatally at resolution time. -/
theorem c10_invalid_default_lazy (env : Env)
    (h : env.resolvedDefault ∉ VALID_3D_BACKENDS) :
    ∃ st, initModule env = Except.ok st ∧
      st.MNE_3D_BACKEND = env.resolvedDefault ∧ st._mod = none ∧
      (∀ size bgcolor handle, create_3d_figure st size bgcolor handle =
        Except.error (PyError.nameError "_mod")) ∧
      (∀ figure azimuth elevation focalpoint distance,
        set_3d_view st figure azimuth elevation focalpoint distance =
          Except.error (PyError.nameError "_mod")) ∧
      (∀ figure title size, set_3d_title st figure title size =
        Except.error (PyError.nameError "_mod")) := by
  refine ⟨{ MNE_3D_BACKEND := env.resolvedDefault,
            MNE_3D_BACKEND_TEST_DATA := false, _mod := none },
          ?_, rfl, rfl, fun _ _ _ => rfl, fun _ _ _ _ _ => rfl,
          fun _ _ _ => rfl⟩
  unfold initModule moduleBody
  have heq : moduleBodyCore env
      { MNE_3D_BACKEND := env.resolvedDefault,
        MNE_3D_BACKEND_TEST_DATA := false, _mod := none } =
      ({ MNE_3D_BACKEND := env.resolvedDefault,
         MNE_3D_BACKEND_TEST_DATA := false, _mod := none }, none) := by
    simp [moduleBodyCore, h]
  rw [heq]

/-- Witness for C10 at the resolver output `"foo"`. -/
theorem c10_witness :
    ∃ st, initModule envFoo = Except.ok st ∧
      st.MNE_3D_BACKEND = envFoo.resolvedDefault ∧ st._mod = none ∧
      (∀ size bgcolor handle, create_3d_figure st size bgcolor handle =
        Except.error (PyError.nameError "_mod")) ∧
      (∀ figure azimuth elevation focalpoint distance,
        set_3d_view st figure azimuth elevation focalpoint distance =
          Except.error (PyError.nameError "_mod")) ∧
      (∀ figure title size, set_3d_title st figure title size =
        Except.error (PyError.nameError "_mod")) :=
  c10_invalid_default_lazy envFoo (by decide)

end MneRenderer
